import Mathlib

/-!
Shallow embedding of the GripForge dashboard's connection/session subsystem
(`src/App.tsx`, `src/lib/dataSource.ts`, `src/hooks/useForceStream.ts`,
`src/utils/storage.ts`, `src/utils/types.ts`), together with proofs of the
spec's testable properties.  JavaScript numbers are modelled as exact
rationals (ℚ), epoch-millisecond timestamps as ℤ, and the event-driven
adapter code as explicit state-transition functions that return the list of
handler callbacks they emit.
-/

namespace GripForge

/-- `Units` from `src/utils/types.ts`: force unit enum kg | N | lbf. -/
inductive Units where
  | kg
  | N
  | lbf
deriving DecidableEq, Repr

/-- `ForceSample` from `src/utils/types.ts`. -/
structure ForceSample where
  force : ℚ
  units : Units
  timestamp_ms : ℤ
deriving DecidableEq, Repr

/-- `SessionSample` from `src/utils/types.ts`: a sample retained during a
recording session, timestamped relative to the session start. -/
structure SessionSample where
  t_ms : ℤ
  force : ℚ
  units : Units
deriving DecidableEq, Repr

/-- `TrainingMode` from `src/utils/types.ts`. -/
inductive TrainingMode where
  | max
  | endurance
  | pyramid
  | free
deriving DecidableEq, Repr

/-- The hand being trained (`"Right" | "Left"` in `src/utils/types.ts`). -/
inductive Hand where
  | Right
  | Left
deriving DecidableEq, Repr

/-- `SessionSummary` from `src/utils/types.ts`. -/
structure SessionSummary where
  id : String
  mode : TrainingMode
  hand : Hand
  startedAt : ℤ
  durationMs : ℤ
  maxForce : ℚ
  avgForce : ℚ
  longestHoldMs : ℤ
  units : Units
deriving DecidableEq, Repr

/-- `EnduranceConfig` from `src/utils/types.ts`. -/
structure EnduranceConfig where
  targetForce : ℚ
deriving DecidableEq, Repr

/-- `PyramidConfig` from `src/utils/types.ts`. -/
structure PyramidConfig where
  steps : List ℚ
deriving DecidableEq, Repr

/-- `ProfileConfig` from `src/utils/types.ts`. -/
structure ProfileConfig where
  name : String
  endurance : EnduranceConfig
  pyramid : PyramidConfig
  preferredUnits : Units
  password : Option String := none
  friends : List String := []
deriving DecidableEq, Repr

/-- `ProfileData` from `src/utils/types.ts`. -/
structure ProfileData where
  profile : ProfileConfig
  sessions : List SessionSummary
deriving DecidableEq, Repr

/-- `convertForce` from `src/App.tsx` (lines 114-131): normalizes through
kilograms with the fixed constants 2.20462 lbf/kg and 9.80665 N/kg. -/
def convertForce (value : ℚ) (fromUnits toUnits : Units) : ℚ :=
  if fromUnits = toUnits then
    value
  else
    let asKg :=
      if fromUnits = Units.kg then value
      else if fromUnits = Units.lbf then value / 2.20462
      else value / 9.80665
    if toUnits = Units.kg then asKg
    else if toUnits = Units.lbf then asKg * 2.20462
    else asKg * 9.80665

/-- `updateProfile` from `src/utils/storage.ts`. -/
def updateProfile (profiles : List ProfileData) (updated : ProfileConfig) :
    List ProfileData :=
  profiles.map fun entry =>
    if entry.profile.name = updated.name then
      { entry with profile := updated }
    else
      entry

/-- `addProfile` from `src/utils/storage.ts`: no-op when a profile of the
same name exists, otherwise appends a new entry with an empty session
list. -/
def addProfile (profiles : List ProfileData) (profile : ProfileConfig) :
    List ProfileData :=
  if profiles.any (fun entry => entry.profile.name = profile.name) then
    profiles
  else
    profiles ++ [{ profile := profile, sessions := [] }]

/-- `addSession` from `src/utils/storage.ts`: prepends the session to the
matching profile's session list, leaving every other entry unchanged. -/
def addSession (profiles : List ProfileData) (profileName : String)
    (session : SessionSummary) : List ProfileData :=
  profiles.map fun entry =>
    if entry.profile.name = profileName then
      { entry with sessions := session :: entry.sessions }
    else
      entry

/-- The session-sample effect of `App` (`src/App.tsx` lines 290-306): the new
sample is appended to the session buffer, which is then truncated to its last
800 entries (`.slice(-800)`). -/
def recordSample (buf : List SessionSample) (s : SessionSample) :
    List SessionSample :=
  let l := buf ++ [s]
  l.drop (l.length - 800)

/-- Feeding a whole sequence of samples to the session recorder: one firing of
the `src/App.tsx` sample effect per sample, in order. -/
def feedSamples (buf : List SessionSample) (xs : List SessionSample) :
    List SessionSample :=
  xs.foldl recordSample buf

/-- The `(delta, force)` pairs visited by the hold loop of
`stopSessionHandler` (`src/App.tsx` lines 370-378): for each index
`i ≥ 1`, the elapsed time since the previous sample and the force at `i`. -/
def holdSteps : List SessionSample → List (ℤ × ℚ)
  | a :: b :: rest => (b.t_ms - a.t_ms, b.force) :: holdSteps (b :: rest)
  | _ => []

/-- One iteration of the hold loop of `stopSessionHandler`
(`src/App.tsx` lines 370-378), acting on `(longestHoldMs, currentHold)`. -/
def holdStep (target : ℚ) : ℤ × ℤ → ℤ × ℚ → ℤ × ℤ
  | (longestHoldMs, currentHold), (delta, force) =>
    if force ≥ target then
      let c := currentHold + delta
      (max longestHoldMs c, c)
    else
      (longestHoldMs, 0)

/-- The hold loop of `stopSessionHandler` in full: folds `holdStep` over the
consecutive-sample steps, starting from `longestHoldMs = 0`,
`currentHold = 0`, and returns the final `longestHoldMs`. -/
def longestHold (samples : List SessionSample) (target : ℚ) : ℤ :=
  ((holdSteps samples).foldl (holdStep target) (0, 0)).1

/-- `stopSessionHandler` from `src/App.tsx` (lines 356-393), as a pure
function of the recorded sample buffer and the profile state.  Returns the
`SessionSummary` it creates (if any) together with the updated profile
collection.  `newId` stands for `createId()` and `now` for the `Date.now()`
call used for `startedAt`. -/
def stopSessionHandler (samples : List SessionSample)
    (profiles : List ProfileData) (activeProfile : ProfileData)
    (activeMode : TrainingMode) (sessionHand : Hand) (newId : String)
    (now : ℤ) : Option SessionSummary × List ProfileData :=
  match samples with
  | [] => (none, profiles)
  | s0 :: rest =>
    let maxForce := (rest.map (fun s => s.force)).foldl max s0.force
    let avgForce :=
      ((s0 :: rest).map (fun s => s.force)).sum / (s0 :: rest).length
    let durationMs := (rest.getLastD s0).t_ms
    let target := activeProfile.profile.endurance.targetForce
    let longestHoldMs := longestHold (s0 :: rest) target
    let summary : SessionSummary :=
      { id := newId
        mode := activeMode
        hand := sessionHand
        startedAt := now - durationMs
        durationMs := durationMs
        maxForce := maxForce
        avgForce := avgForce
        longestHoldMs := longestHoldMs
        units := activeProfile.profile.preferredUnits }
    (some summary, addSession profiles activeProfile.profile.name summary)

/-- State of the `useForceStream` hook (`src/hooks/useForceStream.ts`)
relevant to transport ownership: the stored cleanup handle (`cleanupRef`) and
the set of transports currently active, with transports identified by the
order in which they were started. -/
structure StreamState where
  cleanupHandle : Option ℕ
  activeTransports : List ℕ
  nextId : ℕ
deriving DecidableEq, Repr

/-- The initial hook state: no cleanup handle stored, no transport active. -/
def streamInit : StreamState := ⟨none, [], 0⟩

/-- `disconnect` from `useForceStream` (lines 42-45): invokes the stored
cleanup handle if present (tearing down that transport) and clears it;
a no-op when no handle is stored. -/
def disconnect (st : StreamState) : StreamState :=
  match st.cleanupHandle with
  | none => st
  | some t =>
    { st with
      cleanupHandle := none
      activeTransports := st.activeTransports.erase t }

/-- `connect` from `useForceStream` (lines 47-74): always calls
`disconnect()` first, then delegates to the selected adapter's `connect`.
`ok = true` models `source.connect` resolving, activating a fresh transport
whose cleanup is stored in `cleanupRef`; `ok = false` models it throwing
before any transport is active, leaving no cleanup handle. -/
def connect (st : StreamState) (ok : Bool) : StreamState :=
  let st1 := disconnect st
  if ok then
    { cleanupHandle := some st1.nextId
      activeTransports := st1.activeTransports ++ [st1.nextId]
      nextId := st1.nextId + 1 }
  else
    { st1 with nextId := st1.nextId + 1 }

/-- Hook invariant: the active transports are exactly the one (if any) whose
cleanup is stored in `cleanupRef`. -/
def streamInv (st : StreamState) : Prop :=
  st.activeTransports = st.cleanupHandle.toList

/-- `ConnectionStatus` from `src/lib/dataSource.ts`. -/
inductive ConnStatus where
  | disconnected
  | connecting
  | connected
deriving DecidableEq, Repr

/-- One handler callback invocation made by the Wi-Fi adapter: `onSample`,
`onStatus`, `onError` or `onMeta`. -/
inductive HEvent where
  | sampleEv : ForceSample → HEvent
  | statusEv : ConnStatus → HEvent
  | errorEv : String → HEvent
  | metaEv : Option ℚ → Option Bool → HEvent
deriving DecidableEq, Repr

/-- The mutable closure state of `createWifiSource.connect`
(`src/lib/dataSource.ts` lines 36-52): the `active` and `connected` flags,
whether the WebSocket is established (`ws` with listeners attached), and
whether the polling interval is running (`pollId` set). -/
structure WifiState where
  active : Bool
  connected : Bool
  wsOpen : Bool
  polling : Bool
deriving DecidableEq, Repr

/-- Outcome of the WebSocket connection attempt awaited in
`createWifiSource.connect` (lines 96-110): the `open` event, the `error`
event, or the 1.5 s timeout firing. -/
inductive WsOutcome where
  | opened
  | wsError
  | wsTimeout
deriving DecidableEq, Repr

/-- `createWifiSource.connect` (`src/lib/dataSource.ts` lines 36-139): emits
`onStatus("connecting")` first, then attempts the WebSocket.  On `open` it
attaches the message listener; on the `error` event or the 1.5 s timeout the
awaited promise rejects, the `catch` branch calls `startPolling()` and the
function still returns `cleanup` normally — no `onError` is invoked.
Returns the closure state and the list of handler events emitted. -/
def wifiConnect (o : WsOutcome) : WifiState × List HEvent :=
  match o with
  | WsOutcome.opened =>
    ({ active := true, connected := false, wsOpen := true, polling := false },
     [HEvent.statusEv ConnStatus.connecting])
  | WsOutcome.wsError =>
    ({ active := true, connected := false, wsOpen := false, polling := true },
     [HEvent.statusEv ConnStatus.connecting])
  | WsOutcome.wsTimeout =>
    ({ active := true, connected := false, wsOpen := false, polling := true },
     [HEvent.statusEv ConnStatus.connecting])

/-- `handleSample` from `createWifiSource.connect` (lines 54-60): the first
sample flips status to `connected`; every sample is forwarded to
`onSample`. -/
def handleSample (st : WifiState) (s : ForceSample) :
    WifiState × List HEvent :=
  if st.connected then
    (st, [HEvent.sampleEv s])
  else
    ({ st with connected := true },
     [HEvent.statusEv ConnStatus.connected, HEvent.sampleEv s])

/-- An incoming WebSocket message as seen by the message listener of
`createWifiSource` (lines 112-127): `malformed` stands for a message on
which `JSON.parse` (or subsequent property access) throws — caught and
ignored; `payload` for a message parsed to an object, each field present or
absent (absent fields are replaced through the `??` defaults). -/
inductive WireMsg where
  | malformed
  | payload (force : Option ℚ) (units : Option Units) (ts : Option ℤ)
deriving DecidableEq, Repr

/-- The WebSocket `message` listener (lines 112-127): a malformed message is
silently dropped; otherwise the parsed fields are defaulted
(`data.force ?? 0`, `data.units ?? "kg"`, `data.timestamp_ms ?? Date.now()`)
and passed to `handleSample`.  `now` stands for `Date.now()`. -/
def onWsMessage (st : WifiState) (now : ℤ) (msg : WireMsg) :
    WifiState × List HEvent :=
  match msg with
  | WireMsg.malformed => (st, [])
  | WireMsg.payload f u t =>
    handleSample st
      { force := f.getD 0, units := u.getD Units.kg, timestamp_ms := t.getD now }

/-- Delivers a sequence of WebSocket messages to the message listener in
arrival order, collecting all handler events. -/
def runWsMessages (st : WifiState) (now : ℤ) :
    List WireMsg → WifiState × List HEvent
  | [] => (st, [])
  | m :: rest =>
    let p := onWsMessage st now m
    let q := runWsMessages p.1 now rest
    (q.1, p.2 ++ q.2)

/-- Number of `onSample` invocations in a list of handler events. -/
def countSamples (evs : List HEvent) : ℕ :=
  (evs.filter fun e =>
    match e with
    | HEvent.sampleEv _ => true
    | _ => false).length

/-- Whether any `onError` invocation occurs in a list of handler events. -/
def hasError (evs : List HEvent) : Bool :=
  evs.any fun e =>
    match e with
    | HEvent.errorEv _ => true
    | _ => false

/-- `WIFI_FALLBACK_MESSAGE` from `src/lib/dataSource.ts`. -/
def WIFI_FALLBACK_MESSAGE : String :=
  "Device not reachable â€” check Wi-Fi connection."

/-- The `cleanup` closure of `createWifiSource.connect` (lines 43-52):
clears the `active` flag, closes the socket, clears the polling interval,
and emits `onStatus("disconnected")`. -/
def wifiCleanup (st : WifiState) : WifiState × List HEvent :=
  ({ active := false, connected := st.connected, wsOpen := false,
     polling := false },
   [HEvent.statusEv ConnStatus.disconnected])

/-- Outcome of one polling tick's fetch of `/api/force` (lines 62-93):
`failure` covers a network error, a non-ok response, or a body on which
JSON parsing or property access throws (all reach the `catch` branch);
`ok` carries the parsed fields, each present or absent. -/
inductive PollOutcome where
  | failure
  | ok (battery : Option ℚ) (isConn : Option Bool) (force : Option ℚ)
      (units : Option Units) (ts : Option ℤ)
deriving DecidableEq, Repr

/-- One tick of `startPolling` (lines 63-92): on failure, if the adapter was
already torn down nothing happens, otherwise `onError` fires with the fixed
message and `cleanup()` runs; on success `onMeta` fires, then the defaulted
sample goes through `handleSample`.  `now` stands for `Date.now()`. -/
def onPollTick (st : WifiState) (now : ℤ) (o : PollOutcome) :
    WifiState × List HEvent :=
  match o with
  | PollOutcome.failure =>
    if st.active = false then
      (st, [])
    else
      let p := wifiCleanup st
      (p.1, HEvent.errorEv WIFI_FALLBACK_MESSAGE :: p.2)
  | PollOutcome.ok b c f u t =>
    let p := handleSample st
      { force := f.getD 0, units := u.getD Units.kg, timestamp_ms := t.getD now }
    (p.1, HEvent.metaEv b c :: p.2)

/-- The default profile config of `src/utils/storage.ts`. -/
def defaultProfile : ProfileConfig :=
  { name := "bryce"
    endurance := { targetForce := 35 }
    pyramid := { steps := [20, 30, 40, 30, 20] }
    preferredUnits := Units.kg }

/-- A profile entry whose endurance target force is 15, for the C2
scenario. -/
def enduranceEntry : ProfileData :=
  { profile :=
      { defaultProfile with endurance := { targetForce := 15 } }
    sessions := [] }

/-- The C2 scenario input: samples at t = 0, 100, 200, 300 ms with forces
10, 20, 12, 25. -/
def c2Samples : List SessionSample :=
  [⟨0, 10, Units.kg⟩, ⟨100, 20, Units.kg⟩, ⟨200, 12, Units.kg⟩,
   ⟨300, 25, Units.kg⟩]

/-- A sample with a large force, fed first in the C1 failing input. -/
def bigSample : SessionSample := ⟨0, 100, Units.kg⟩

/-- A sample with a small force, fed 800 times in the C1 failing input. -/
def smallSample : SessionSample := ⟨1, 1, Units.kg⟩

/-- The C1 failing input: 801 samples, the first with force 100 followed by
800 with force 1, so that the 800-point buffer truncation discards the
maximal sample. -/
def c1Samples : List SessionSample :=
  bigSample :: List.replicate 800 smallSample

/-- A profile entry used as concrete input in witnesses. -/
def entryA : ProfileData := { profile := defaultProfile, sessions := [] }

/-- A profile config whose name differs from every entry of `[entryA]`. -/
def cfgB : ProfileConfig := { defaultProfile with name := "ana" }

/-- A concrete session summary used in the C9 witness. -/
def summary1 : SessionSummary :=
  { id := "s1", mode := TrainingMode.max, hand := Hand.Right, startedAt := 0,
    durationMs := 1000, maxForce := 50, avgForce := 30, longestHoldMs := 0,
    units := Units.kg }

/-- A second concrete session summary used in the C9 witness. -/
def summary2 : SessionSummary := { summary1 with id := "s2" }

/-- The new session summary prepended in the C9 witness. -/
def summaryNew : SessionSummary := { summary1 with id := "s3" }

/-- A profile entry with two existing sessions, for the C9 witness. -/
def entryC : ProfileData :=
  { profile := defaultProfile, sessions := [summary1, summary2] }

end GripForge

namespace GripForge

/-- C3: `convert(v, u, u) = v` and the round trip
`convert(convert(v, a, b), b, a) = v`, exactly over ℚ. -/
theorem convertForce_id_roundtrip (v : ℚ) (a b : Units) :
    convertForce v a a = v ∧ convertForce (convertForce v a b) b a = v := by
  refine ⟨by simp [convertForce], ?_⟩
  cases a <;> cases b <;>
    simp only [convertForce, if_true, if_false, reduceCtorEq, ite_true,
      ite_false, reduceIte] <;>
    field_simp <;> ring

/-- C4: stopping a session in which zero samples were recorded is a no-op:
no `SessionSummary` is created and the profile collection is returned
unchanged. -/
theorem stopSession_empty_noop (profiles : List ProfileData)
    (activeProfile : ProfileData) (activeMode : TrainingMode)
    (sessionHand : Hand) (newId : String) (now : ℤ) :
    stopSessionHandler (feedSamples [] []) profiles activeProfile activeMode
      sessionHand newId now = (none, profiles) := rfl

/-- C2 counterexample: on the scenario input (samples at t = 0, 100, 200,
300 ms with forces 10, 20, 12, 25 and endurance target 15) the summary
produced on stop does NOT have `longestHoldMs = 200`. -/
theorem c2_longestHold_not_200 :
    ¬ Option.map (fun s => s.longestHoldMs)
        (stopSessionHandler (feedSamples [] c2Samples) [enduranceEntry]
          enduranceEntry TrainingMode.endurance Hand.Right "c2" 300).1 =
      some 200 := by
  decide

/-- C2 amended: on the scenario input (samples at t = 0, 100, 200, 300 ms
with forces 10, 20, 12, 25 and endurance target 15) the summary produced on
stop has `longestHoldMs = 100`: each contiguous run with force ≥ target
spans exactly one 100 ms inter-sample gap. -/
theorem c2_longestHold_100 :
    Option.map (fun s => s.longestHoldMs)
        (stopSessionHandler (feedSamples [] c2Samples) [enduranceEntry]
          enduranceEntry TrainingMode.endurance Hand.Right "c2" 300).1 =
      some 100 := by
  decide

/-- C8: `addProfile` is a no-op when a profile with the config's name
already exists in the collection, and otherwise appends exactly one new
entry `{profile := config, sessions := []}` at the end. -/
theorem addProfile_spec (profiles : List ProfileData)
    (config : ProfileConfig) :
    ((∃ e ∈ profiles, e.profile.name = config.name) →
        addProfile profiles config = profiles) ∧
    ((¬ ∃ e ∈ profiles, e.profile.name = config.name) →
        addProfile profiles config =
          profiles ++ [{ profile := config, sessions := [] }]) := by
  unfold addProfile
  by_cases h : ∃ e ∈ profiles, e.profile.name = config.name
  · rw [if_pos (by simpa [List.any_eq_true] using h)]
    exact ⟨fun _ => rfl, fun hn => absurd h hn⟩
  · rw [if_neg (by simpa [List.any_eq_true] using h)]
    exact ⟨fun hp => absurd hp h, fun _ => rfl⟩

/-- C8 witness: on the one-entry collection `[entryA]`, adding a config with
the duplicate name "bryce" returns the collection unchanged, and adding a
config with the fresh name "ana" appends one entry with empty sessions. -/
theorem addProfile_spec_witness :
    addProfile [entryA] defaultProfile = [entryA] ∧
    addProfile [entryA] cfgB =
      [entryA, { profile := cfgB, sessions := [] }] :=
  ⟨(addProfile_spec [entryA] defaultProfile).1
      ⟨entryA, List.mem_singleton.mpr rfl, rfl⟩,
   (addProfile_spec [entryA] cfgB).2 (by decide)⟩

/-- C9: `addSession` preserves the collection's length; the entry at each
index is updated by prepending the summary when its profile name matches,
and left unchanged otherwise; and when no entry's name matches, the whole
collection is returned unchanged. -/
theorem addSession_spec (profiles : List ProfileData) (profileName : String)
    (s : SessionSummary) :
    (addSession profiles profileName s).length = profiles.length ∧
    (∀ i (h : i < profiles.length),
      ((profiles.get ⟨i, h⟩).profile.name = profileName →
        (addSession profiles profileName s)[i]? =
          some { profiles.get ⟨i, h⟩ with
                 sessions := s :: (profiles.get ⟨i, h⟩).sessions }) ∧
      ((profiles.get ⟨i, h⟩).profile.name ≠ profileName →
        (addSession profiles profileName s)[i]? =
          some (profiles.get ⟨i, h⟩))) ∧
    ((∀ e ∈ profiles, e.profile.name ≠ profileName) →
      addSession profiles profileName s = profiles) := by
  refine ⟨by simp [addSession], fun i h => ?_, fun h => ?_⟩
  · have hget : profiles[i]? = some (profiles.get ⟨i, h⟩) :=
      List.getElem?_eq_getElem h
    constructor
    · intro hname
      simp only [List.get_eq_getElem] at hname
      simp [addSession, List.getElem?_map, hget, hname]
    · intro hname
      simp only [List.get_eq_getElem] at hname
      simp [addSession, List.getElem?_map, hget, hname]
  · induction profiles with
    | nil => rfl
    | cons e rest ih =>
      have he : e.profile.name ≠ profileName := h e (List.mem_cons_self e rest)
      have hrest : ∀ x ∈ rest, x.profile.name ≠ profileName :=
        fun x hx => h x (List.mem_cons_of_mem e hx)
      simp only [addSession, List.map_cons, if_neg he]
      have := ih hrest
      simp only [addSession] at this
      rw [this]

/-- C9 witness: adding summary "s3" to the profile "bryce" whose session
list is `[summary1, summary2]` yields the session list
`[summaryNew, summary1, summary2]` — prepended, most-recent-first. -/
theorem addSession_spec_witness :
    (addSession [entryC] "bryce" summaryNew)[0]? =
      some { profile := defaultProfile
             sessions := [summaryNew, summary1, summary2] } :=
  ((addSession_spec [entryC] "bryce" summaryNew).2.1 0 (by decide)).1 rfl

/-- C5: calling the hook's `connect()` twice in a row without an intervening
`disconnect()` leaves exactly one active transport: each `connect()` first
runs the stored cleanup of any existing connection before delegating to the
adapter. -/
theorem connect_twice_one_transport (st : StreamState) (ok : Bool)
    (h : streamInv st) :
    (connect (connect st ok) true).activeTransports.length = 1 ∧
    streamInv (connect (connect st ok) true) := by
  rcases st with ⟨ch, ats, n⟩
  cases ch <;> cases ok <;>
    simp only [streamInv, Option.toList] at h <;> subst h <;>
    simp [connect, disconnect, streamInv, Option.toList]

/-- C5 witness: from the initial hook state, two consecutive successful
`connect()` calls leave exactly one active transport. -/
theorem connect_twice_one_transport_witness :
    streamInv streamInit ∧
    (connect (connect streamInit true) true).activeTransports.length = 1 :=
  ⟨rfl, (connect_twice_one_transport streamInit true rfl).1⟩

/-- C6: when the WebSocket connection attempt ends in the error event or the
1.5 s timeout, the Wi-Fi adapter falls back in-process to polling (polling
interval running, no socket), invokes no `onError`, and the only externally
visible effect is the `onStatus("connecting")` transition. -/
theorem wifi_fallback_no_error (o : WsOutcome) (h : o ≠ WsOutcome.opened) :
    (wifiConnect o).1.polling = true ∧
    (wifiConnect o).1.wsOpen = false ∧
    (wifiConnect o).2 = [HEvent.statusEv ConnStatus.connecting] ∧
    ∀ m, HEvent.errorEv m ∉ (wifiConnect o).2 := by
  cases o with
  | opened => exact absurd rfl h
  | wsError => exact ⟨rfl, rfl, rfl, fun m => by simp [wifiConnect]⟩
  | wsTimeout => exact ⟨rfl, rfl, rfl, fun m => by simp [wifiConnect]⟩

/-- C6 witness: the timeout outcome in particular starts polling without
invoking `onError`. -/
theorem wifi_fallback_no_error_witness :
    WsOutcome.wsTimeout ≠ WsOutcome.opened ∧
    (wifiConnect WsOutcome.wsTimeout).1.polling = true ∧
    (∀ m, HEvent.errorEv m ∉ (wifiConnect WsOutcome.wsTimeout).2) :=
  ⟨by decide,
   (wifi_fallback_no_error WsOutcome.wsTimeout (by decide)).1,
   (wifi_fallback_no_error WsOutcome.wsTimeout (by decide)).2.2.2⟩

/-- C7: delivering a malformed WebSocket message followed by a well-formed
one to the message listener produces exactly one `onSample` invocation and
no `onError`, in every listener state. -/
theorem malformed_then_wellformed_one_sample (st : WifiState) (now : ℤ)
    (f : Option ℚ) (u : Option Units) (t : Option ℤ) :
    countSamples (runWsMessages st now
        [WireMsg.malformed, WireMsg.payload f u t]).2 = 1 ∧
    hasError (runWsMessages st now
        [WireMsg.malformed, WireMsg.payload f u t]).2 = false := by
  cases hc : st.connected <;>
    simp [runWsMessages, onWsMessage, handleSample, countSamples, hasError,
      hc]

/-- C10: a wire payload that parses but lacks the force, units and
timestamp fields is not dropped: both the WebSocket listener and the
polling tick still emit exactly one sample, with force 0, units kg and the
current time as timestamp; only a payload on which parsing or property
access throws (malformed) is dropped without any event. -/
theorem missing_fields_defaulted (st : WifiState) (now : ℤ)
    (b : Option ℚ) (c : Option Bool) :
    HEvent.sampleEv { force := 0, units := Units.kg, timestamp_ms := now } ∈
        (onWsMessage st now (WireMsg.payload none none none)).2 ∧
    countSamples (onWsMessage st now (WireMsg.payload none none none)).2 = 1 ∧
    (onWsMessage st now WireMsg.malformed).2 = [] ∧
    HEvent.sampleEv { force := 0, units := Units.kg, timestamp_ms := now } ∈
        (onPollTick st now (PollOutcome.ok b c none none none)).2 ∧
    countSamples
        (onPollTick st now (PollOutcome.ok b c none none none)).2 = 1 := by
  cases hc : st.connected <;>
    simp [onWsMessage, onPollTick, handleSample, countSamples, hc]

/-- While the buffer holds fewer than 800 samples, the sample effect is a
plain append. -/
theorem recordSample_small (buf : List SessionSample) (s : SessionSample)
    (h : buf.length < 800) : recordSample buf s = buf ++ [s] := by
  show List.drop ((buf ++ [s]).length - 800) (buf ++ [s]) = buf ++ [s]
  have h0 : (buf ++ [s]).length - 800 = 0 := by
    simp only [List.length_append, List.length_singleton]; omega
  rw [h0, List.drop_zero]

/-- Once the buffer holds exactly 800 samples, the sample effect drops the
oldest sample and appends the new one. -/
theorem recordSample_full (buf : List SessionSample) (s : SessionSample)
    (h : buf.length = 800) :
    recordSample buf s = buf.drop 1 ++ [s] := by
  show List.drop ((buf ++ [s]).length - 800) (buf ++ [s]) = buf.drop 1 ++ [s]
  have h1 : (buf ++ [s]).length - 800 = 1 := by
    simp only [List.length_append, List.length_singleton, h]
  rw [h1, List.drop_append_of_le_length (by omega)]

/-- Feeding a sequence that keeps the buffer within the 800-sample bound is
a plain append. -/
theorem feedSamples_small (xs buf : List SessionSample)
    (h : buf.length + xs.length ≤ 800) : feedSamples buf xs = buf ++ xs := by
  induction xs generalizing buf with
  | nil => simp [feedSamples]
  | cons x rest ih =>
    have hb : buf.length < 800 := by
      simp only [List.length_cons] at h; omega
    unfold feedSamples
    rw [List.foldl_cons, recordSample_small buf x hb]
    have := ih (buf ++ [x])
      (by simp only [List.length_append, List.length_singleton,
            List.length_cons, List.length_nil] at h ⊢; omega)
    unfold feedSamples at this
    rw [this, List.append_assoc, List.singleton_append]

/-- Feeding the C1 input (one force-100 sample, then 800 force-1 samples)
leaves the 800-point buffer holding only the force-1 samples: the maximal
sample has been truncated away. -/
theorem feedSamples_c1 :
    feedSamples [] c1Samples = List.replicate 800 smallSample := by
  have h800 : List.replicate 800 smallSample =
      List.replicate 799 smallSample ++ [smallSample] := by
    rw [show (800 : ℕ) = 799 + 1 from rfl, List.replicate_succ']
  unfold c1Samples
  rw [h800, ← List.cons_append]
  unfold feedSamples
  rw [List.foldl_append]
  have hsm : List.foldl recordSample ([] : List SessionSample)
      (bigSample :: List.replicate 799 smallSample) =
      bigSample :: List.replicate 799 smallSample := by
    have := feedSamples_small (bigSample :: List.replicate 799 smallSample)
      []
      (by simp only [List.length_nil, List.length_cons,
            List.length_replicate]; omega)
    unfold feedSamples at this
    rw [List.nil_append] at this
    exact this
  rw [hsm, List.foldl_cons, List.foldl_nil,
    recordSample_full _ _
      (by simp only [List.length_cons, List.length_replicate]),
    List.drop_one, List.tail_cons]

/-- Folding `max` over a constant list returns that constant. -/
theorem foldl_max_replicate (n : ℕ) (a : ℚ) :
    (List.replicate n a).foldl max a = a := by
  induction n with
  | zero => rfl
  | succ n ih => simpa [List.replicate_succ] using ih

/-- C1 (code bug demonstration): on the 801-sample input `c1Samples` the
summary produced on stop has `maxForce = 1`, although the sample with force
100 was fed to the recorder — the 800-point `.slice(-800)` display buffer
is also the source of the statistics, so they are not computed over the
full sample sequence. -/
theorem stop_stats_truncated_by_buffer :
    Option.map (fun s => s.maxForce)
        (stopSessionHandler (feedSamples [] c1Samples) [entryA] entryA
          TrainingMode.max Hand.Right "c1" 0).1 = some 1 ∧
    bigSample ∈ c1Samples ∧ bigSample.force = 100 ∧ (1 : ℚ) < 100 := by
  refine ⟨?_, List.mem_cons_self _ _, rfl, by norm_num⟩
  rw [feedSamples_c1, show (800 : ℕ) = 799 + 1 from rfl,
    List.replicate_succ]
  simp only [stopSessionHandler, List.map_replicate]
  have : smallSample.force = 1 := rfl
  rw [this, foldl_max_replicate]
  rfl

end GripForge
